import Mathlib

/-!
Verification development for the esp-fe audio recording and transcription
client. The definitions below are a shallow embedding of the TypeScript
sources:

- `TranscriptionService` embeds `src/app/services/transcription.service.ts`
  (conversation correlator, request construction, error normalization);
- `DashboardComponent` embeds `src/app/components/dashboard/dashboard.component.ts`
  (recording lifecycle, fragment accumulation, transcription state);
- the session-management operation `startNewSession` is present in the
  repository only through its test suite, so it is modelled from the spec.

HTTP calls are embedded by passing the outcome of the call (success payload
or error response) as an explicit argument, and tracking how many requests
an operation issues.
-/

deriving instance DecidableEq for Except

namespace TranscriptionService

/-- Embeds the `ConversationStartResponse` interface of
`transcription.service.ts`. -/
structure ConversationStartResponse where
  conversationId : String
  status : String
  message : Option String
  deriving Repr, DecidableEq

/-- Embeds the data of an Angular `HttpErrorResponse` as consumed by
`handleError`: the HTTP status, whether `error.error` is a client-side
`ErrorEvent` (with its `message`), and otherwise the optional
`error.error?.message` payload field. -/
structure HttpErrorResponse where
  status : Nat
  errorIsErrorEvent : Bool
  errorEventMessage : String
  errorPayloadMessage : Option String
  deriving Repr, DecidableEq

/-- Embeds the JavaScript fallback expression in the default branch of
`handleError` (the field `error.error?.message` with the Unknown error
default): an absent or empty (falsy) message is replaced by the literal
Unknown error text. -/
def payloadDetail (e : HttpErrorResponse) : String :=
  match e.errorPayloadMessage with
  | some m => if m = "" then "Unknown error" else m
  | none => "Unknown error"

/-- Embeds the private `handleError` arrow function of
`transcription.service.ts` (lines 209-254): a client-side `ErrorEvent`
produces a `Client Error:` message; otherwise the HTTP status is switched
over the fixed table, with a generic `Server Error (<status>): <detail>`
default. -/
def handleError (e : HttpErrorResponse) : String :=
  if e.errorIsErrorEvent then
    "Client Error: " ++ e.errorEventMessage
  else if e.status = 0 then
    "Unable to connect to transcription service. Please check if the server is running."
  else if e.status = 400 then
    "Invalid audio format. Please try recording again."
  else if e.status = 413 then
    "Audio file is too large. Please record a shorter audio clip."
  else if e.status = 422 then
    "Audio format not supported. Please try a different recording format."
  else if e.status = 429 then
    "Too many requests. Please wait a moment and try again."
  else if e.status = 500 then
    "Server error occurred during transcription. Please try again later."
  else if e.status = 503 then
    "Transcription service is temporarily unavailable. Please try again later."
  else
    "Server Error (" ++ Nat.repr e.status ++ "): " ++ payloadDetail e

/-- State of the service: the `startedConversations` set and the
`conversationIdMapping` map (frontend id to backend id), embedded as lists.
The map is embedded as an association list whose lookup finds the most
recently set entry, matching `Map.get` after `Map.set`. -/
structure ServiceState where
  startedConversations : List String
  conversationIdMapping : List (String × String)
  deriving Repr, DecidableEq

/-- The state of a freshly constructed service: both containers empty. -/
def initialState : ServiceState :=
  { startedConversations := [], conversationIdMapping := [] }

/-- Lookup in the embedded `Map<string, string>`: first entry for the key. -/
def lookupMapping : List (String × String) → String → Option String
  | [], _ => none
  | (k, v) :: rest, key => if k = key then some v else lookupMapping rest key

/-- Embeds the JavaScript expression
`this.conversationIdMapping.get(conversationId) || conversationId`:
a missing entry, or a recorded empty string (falsy), falls back to the
given conversation id. -/
def mappingOrSelf (m : List (String × String)) (conversationId : String) : String :=
  match lookupMapping m conversationId with
  | some b => if b = "" then conversationId else b
  | none => conversationId

/-- Outcome of one `ensureConversationStarted` call: the service state
afterwards, the value delivered to the subscriber (the conversation id to
use, or the normalized error message), and how many start-conversation
HTTP requests the call issued. -/
structure EnsureOutcome where
  state : ServiceState
  result : Except String String
  startRequests : Nat
  deriving Repr, DecidableEq

/-- Embeds `ensureConversationStarted` of `transcription.service.ts`
(lines 55-75). The outcome of the `POST /conversation/start` request that
would be issued is passed explicitly as `startOutcome`. If the id is
already in `startedConversations`, the recorded backend id (with the falsy
fallback) is returned and no request is issued. Otherwise the start request
is issued: on success the id is marked started and the mapping recorded
(the `tap` operator), and the backend-returned id is the result (the `map`
operator); on failure the error normalized by `handleError` (the
`catchError` inside `startConversation`) is the result and the state is
untouched. -/
def ensureConversationStarted (st : ServiceState) (conversationId : String)
    (startOutcome : Except HttpErrorResponse ConversationStartResponse) :
    EnsureOutcome :=
  if st.startedConversations.contains conversationId then
    { state := st
      result := .ok (mappingOrSelf st.conversationIdMapping conversationId)
      startRequests := 0 }
  else
    match startOutcome with
    | .ok response =>
        { state :=
            { startedConversations := conversationId :: st.startedConversations
              conversationIdMapping :=
                (conversationId, response.conversationId) :: st.conversationIdMapping }
          result := .ok response.conversationId
          startRequests := 1 }
    | .error e =>
        { state := st
          result := .error (handleError e)
          startRequests := 1 }

/-- Embeds `clearStartedConversations` (lines 142-145): both containers are
cleared. -/
def clearStartedConversations (_st : ServiceState) : ServiceState :=
  { startedConversations := [], conversationIdMapping := [] }

/-- The multipart `POST /record` request an operation would issue: the file
metadata, the form fields, and the optional `conversationId` query
parameter. -/
structure TranscriptionRequest where
  fileName : String
  fileType : String
  format : String
  preferredFormat : Option String
  originalFormat : Option String
  conversationIdParam : Option String
  deriving Repr, DecidableEq

/-- Embeds the request construction of `transcribeAudio` of
`transcription.service.ts` (lines 82-104): the file is named
`recording.webm` with format field `webm`, and the `conversationId`
query parameter is appended only when the argument is present and truthy
(the `if (conversationId)` guard, under which an empty string is falsy).
No correlator interaction takes place on this path. -/
def transcribeAudioRequest (conversationId : Option String) : TranscriptionRequest :=
  { fileName := "recording.webm"
    fileType := "audio/webm"
    format := "webm"
    preferredFormat := none
    originalFormat := none
    conversationIdParam :=
      match conversationId with
      | some c => if c = "" then none else some c
      | none => none }

/-- Outcome of one `transcribeAudioAsMP3` call: the service state
afterwards, the transcription request it issues (or the normalized error
of the failed start handshake, in which case no transcription request is
issued), and how many start-conversation requests were issued. -/
structure Mp3Outcome where
  state : ServiceState
  request : Except String TranscriptionRequest
  startRequests : Nat
  deriving Repr, DecidableEq

/-- Embeds `transcribeAudioAsMP3` of `transcription.service.ts`
(lines 110-137): the conversation is first ensured started, and the
transcription request carries the resolved id from that handshake
(`actualConversationId`) as its query parameter unconditionally; the file
is named `recording.mp3` with format `mp3`, preferred format `mp3` and
original format `webm`. When the handshake fails, `switchMap` never runs
and the error propagates. -/
def transcribeAudioAsMP3 (st : ServiceState) (conversationId : String)
    (startOutcome : Except HttpErrorResponse ConversationStartResponse) :
    Mp3Outcome :=
  let o := ensureConversationStarted st conversationId startOutcome
  match o.result with
  | .ok actualConversationId =>
      { state := o.state
        request := .ok
          { fileName := "recording.mp3"
            fileType := "audio/mp3"
            format := "mp3"
            preferredFormat := some "mp3"
            originalFormat := some "webm"
            conversationIdParam := some actualConversationId }
        startRequests := o.startRequests }
  | .error msg =>
      { state := o.state
        request := .error msg
        startRequests := o.startRequests }

end TranscriptionService

namespace TranscriptionService

/-- Claim C3, counterexample. The claim states that the surfaced error
message of every failed HTTP response is determined by the response status
per the fixed table. A response with status 500 whose error payload is a
client-side ErrorEvent is normalized to a Client Error message, not to the
500 table entry, so the claim as stated is false. -/
theorem c3_counterexample_errorEvent_overrides_status :
    handleError
      { status := 500, errorIsErrorEvent := true, errorEventMessage := "boom",
        errorPayloadMessage := none } = "Client Error: boom" ∧
    "Client Error: boom" ≠
      "Server error occurred during transcription. Please try again later." := by
  constructor
  · rfl
  · decide

/-- Claim C3, amended: for every failed HTTP response whose error payload is
not a client-side ErrorEvent, the surfaced message is determined
deterministically by the status per the fixed table, with the generic
Server Error message (carrying the decimal status and the payload detail)
for any status outside the table. -/
theorem c3_status_table (e : HttpErrorResponse) (h : e.errorIsErrorEvent = false) :
    (e.status = 0 → handleError e =
      "Unable to connect to transcription service. Please check if the server is running.") ∧
    (e.status = 400 → handleError e =
      "Invalid audio format. Please try recording again.") ∧
    (e.status = 413 → handleError e =
      "Audio file is too large. Please record a shorter audio clip.") ∧
    (e.status = 422 → handleError e =
      "Audio format not supported. Please try a different recording format.") ∧
    (e.status = 429 → handleError e =
      "Too many requests. Please wait a moment and try again.") ∧
    (e.status = 500 → handleError e =
      "Server error occurred during transcription. Please try again later.") ∧
    (e.status = 503 → handleError e =
      "Transcription service is temporarily unavailable. Please try again later.") ∧
    (e.status ≠ 0 → e.status ≠ 400 → e.status ≠ 413 → e.status ≠ 422 →
      e.status ≠ 429 → e.status ≠ 500 → e.status ≠ 503 →
      handleError e = "Server Error (" ++ Nat.repr e.status ++ "): " ++ payloadDetail e) := by
  refine ⟨?_, ?_, ?_, ?_, ?_, ?_, ?_, ?_⟩ <;>
    intro hs <;> simp [handleError, h, hs]
  intro h400 h413 h422 h429 h500 h503
  simp [hs, h400, h413, h422, h429, h500, h503]

/-- Witness for c3_status_table: a concrete non-ErrorEvent 500 response is
normalized to exactly the 500 table entry. -/
theorem c3_status_table_witness :
    handleError
      { status := 500, errorIsErrorEvent := false, errorEventMessage := "",
        errorPayloadMessage := none } =
      "Server error occurred during transcription. Please try again later." :=
  (c3_status_table
    { status := 500, errorIsErrorEvent := false, errorEventMessage := "",
      errorPayloadMessage := none } rfl).2.2.2.2.2.1 rfl

/-- Claim C10: when the error payload is a client-side ErrorEvent, the
normalized message is Client Error followed by the event message,
regardless of the HTTP status code (replacing the status by any other value
leaves the message unchanged). -/
theorem c10_client_error_bypass (e : HttpErrorResponse)
    (h : e.errorIsErrorEvent = true) :
    handleError e = "Client Error: " ++ e.errorEventMessage ∧
    ∀ s : Nat, handleError { e with status := s } =
      "Client Error: " ++ e.errorEventMessage := by
  refine ⟨by simp [handleError, h], fun s => by simp [handleError, h]⟩

/-- Witness for c10_client_error_bypass: a concrete ErrorEvent response with
status 500, and the same response with status 0, both normalize to the same
Client Error message. -/
theorem c10_client_error_bypass_witness :
    handleError
      { status := 500, errorIsErrorEvent := true, errorEventMessage := "lost",
        errorPayloadMessage := none } = "Client Error: lost" ∧
    handleError
      { status := 0, errorIsErrorEvent := true, errorEventMessage := "lost",
        errorPayloadMessage := none } = "Client Error: lost" :=
  ⟨(c10_client_error_bypass ⟨500, true, "lost", none⟩ rfl).1,
   (c10_client_error_bypass ⟨500, true, "lost", none⟩ rfl).2 0⟩

/-- Claim C2, counterexample. The claim states that the second of two
sequential ensureConversationStarted calls returns the backend identifier
recorded by the first call, falling back to the session identifier only if
no mapping is recorded. When the first, successful start response carries
the empty string as backend identifier, a mapping to the empty string is
recorded, yet the second call returns the session identifier itself (the
JavaScript falsy check treats the recorded empty string like a missing
mapping). -/
theorem c2_counterexample_empty_backend_id :
    (let o1 := ensureConversationStarted initialState "s1"
      (.ok { conversationId := "", status := "started", message := none })
     let o2 := ensureConversationStarted o1.state "s1"
      (.ok { conversationId := "other", status := "started", message := none })
     o1.startRequests = 1 ∧
     lookupMapping o1.state.conversationIdMapping "s1" = some "" ∧
     o2.startRequests = 0 ∧
     o2.result = .ok "s1" ∧
     (Except.ok "s1" : Except String String) ≠ .ok "") := by
  decide

/-- Claim C2, amended: for a session identifier not yet marked started whose
first start request succeeds with a non-empty backend identifier, two
sequential ensureConversationStarted calls issue exactly one start request
in total, and the second call returns the backend identifier recorded by
the first call without issuing any network call (an empty recorded
identifier instead falls back to the session identifier itself, by the
falsy check treating it like a missing mapping). -/
theorem c2_second_call_reuses_recorded_id (st : ServiceState) (s : String)
    (resp : ConversationStartResponse)
    (out2 : Except HttpErrorResponse ConversationStartResponse)
    (hfresh : st.startedConversations.contains s = false)
    (hne : resp.conversationId ≠ "") :
    (let o1 := ensureConversationStarted st s (.ok resp)
     let o2 := ensureConversationStarted o1.state s out2
     o1.startRequests = 1 ∧ o1.result = .ok resp.conversationId ∧
     o2.startRequests = 0 ∧ o2.result = .ok resp.conversationId ∧
     o2.state = o1.state) := by
  simp only [ensureConversationStarted, hfresh, Bool.false_eq_true, if_false]
  simp [List.contains_cons, mappingOrSelf, lookupMapping, hne]

/-- Witness for c2_second_call_reuses_recorded_id: from a fresh service,
starting session s1 with backend id b1 and asking again issues one request
total and yields b1 the second time as well. -/
theorem c2_second_call_reuses_recorded_id_witness :
    (let o1 := ensureConversationStarted initialState "s1"
      (.ok { conversationId := "b1", status := "started", message := none })
     let o2 := ensureConversationStarted o1.state "s1"
      (.error { status := 0, errorIsErrorEvent := false, errorEventMessage := "",
                errorPayloadMessage := none })
     o1.startRequests = 1 ∧ o1.result = .ok "b1" ∧
     o2.startRequests = 0 ∧ o2.result = .ok "b1" ∧
     o2.state = o1.state) :=
  c2_second_call_reuses_recorded_id initialState "s1"
    { conversationId := "b1", status := "started", message := none }
    (.error { status := 0, errorIsErrorEvent := false, errorEventMessage := "",
              errorPayloadMessage := none })
    rfl (by decide)

/-- Claim C4: when a session identifier is not yet marked started and its
start request fails, the normalized failure is the delivered result, the
correlator state is unchanged (the identifier is not marked started and no
mapping entry is recorded), and a subsequent call issues the start request
again. -/
theorem c4_failed_start_leaves_state_unchanged (st : ServiceState) (s : String)
    (e : HttpErrorResponse)
    (out2 : Except HttpErrorResponse ConversationStartResponse)
    (hfresh : st.startedConversations.contains s = false) :
    (let o := ensureConversationStarted st s (.error e)
     o.result = .error (handleError e) ∧ o.state = st ∧ o.startRequests = 1 ∧
     (ensureConversationStarted o.state s out2).startRequests = 1) := by
  simp only [ensureConversationStarted, hfresh, Bool.false_eq_true, if_false]
  cases out2 <;> simp

/-- Witness for c4_failed_start_leaves_state_unchanged: from a fresh
service, a failed (status 0) start for s1 surfaces the normalized
service-unreachable message, leaves the state empty, and a retry issues a
request again. -/
theorem c4_failed_start_leaves_state_unchanged_witness :
    (let o := ensureConversationStarted initialState "s1"
      (.error { status := 0, errorIsErrorEvent := false, errorEventMessage := "",
                errorPayloadMessage := none })
     o.result = .error (handleError
       { status := 0, errorIsErrorEvent := false, errorEventMessage := "",
         errorPayloadMessage := none }) ∧
     o.state = initialState ∧ o.startRequests = 1 ∧
     (ensureConversationStarted o.state "s1"
       (.ok { conversationId := "b1", status := "started", message := none })).startRequests
       = 1) :=
  c4_failed_start_leaves_state_unchanged initialState "s1"
    { status := 0, errorIsErrorEvent := false, errorEventMessage := "",
      errorPayloadMessage := none }
    (.ok { conversationId := "b1", status := "started", message := none }) rfl

/-- Claim C5, counterexample. The claim states that the submit operation,
for every supplied session identifier, resolves the identifier through the
correlator and appends the resolved backend identifier. The plain
transcribeAudio path appends the supplied identifier as-is: with the
correlator state mapping s1 to b1, the issued request carries s1 while the
correlator resolution yields b1. -/
theorem c5_counterexample_plain_path_uses_raw_id :
    (let st : ServiceState :=
      { startedConversations := ["s1"], conversationIdMapping := [("s1", "b1")] }
     (transcribeAudioRequest (some "s1")).conversationIdParam = some "s1" ∧
     (ensureConversationStarted st "s1"
       (.error { status := 0, errorIsErrorEvent := false, errorEventMessage := "",
                 errorPayloadMessage := none })).result = .ok "b1" ∧
     (some "s1" : Option String) ≠ some "b1") := by
  decide

/-- Claim C5, amended: the MP3 submission path (transcribeAudioAsMP3, the
path the dashboard uses) first resolves the session identifier through the
correlator and appends the resolved backend identifier as the
conversationId request parameter; the plain transcribeAudio path instead
appends the supplied identifier unresolved. -/
theorem c5_mp3_path_appends_resolved_id (st : ServiceState) (s : String)
    (out : Except HttpErrorResponse ConversationStartResponse) (b : String)
    (h : (ensureConversationStarted st s out).result = .ok b) :
    (let o := transcribeAudioAsMP3 st s out
     o.request = .ok
       { fileName := "recording.mp3", fileType := "audio/mp3", format := "mp3",
         preferredFormat := some "mp3", originalFormat := some "webm",
         conversationIdParam := some b } ∧
     o.state = (ensureConversationStarted st s out).state ∧
     o.startRequests = (ensureConversationStarted st s out).startRequests) := by
  simp [transcribeAudioAsMP3, h]

/-- Witness for c5_mp3_path_appends_resolved_id: from a fresh service with
session id s1 and a start response carrying backend id b1, the issued
transcription request carries b1 (not the raw s1) as its conversationId
parameter. -/
theorem c5_mp3_path_appends_resolved_id_witness :
    (let o := transcribeAudioAsMP3 initialState "s1"
      (.ok { conversationId := "b1", status := "started", message := none })
     o.request = .ok
       { fileName := "recording.mp3", fileType := "audio/mp3", format := "mp3",
         preferredFormat := some "mp3", originalFormat := some "webm",
         conversationIdParam := some "b1" } ∧
     o.state = (ensureConversationStarted initialState "s1"
       (.ok { conversationId := "b1", status := "started", message := none })).state ∧
     o.startRequests = (ensureConversationStarted initialState "s1"
       (.ok { conversationId := "b1", status := "started", message := none })).startRequests) :=
  c5_mp3_path_appends_resolved_id initialState "s1"
    (.ok { conversationId := "b1", status := "started", message := none })
    "b1" (by decide)

end TranscriptionService

namespace DashboardComponent

/-- Embeds a `TranscriptionResponse` as consumed by the dashboard: the
transcription text and the optional base64 audio payload. The numeric
metadata fields (confidence, duration, language) are not consumed by the
embedded code and are omitted. -/
structure TranscriptionResponse where
  transcription : String
  audioBuffer : Option String
  deriving Repr, DecidableEq

/-- State of the dashboard component (fields declared in
`dashboard.component.ts`, lines 294-307). Audio blobs are embedded by
their byte size: `audioChunks` holds the sizes of the accumulated
fragments, and `audioUrl` is an object URL wrapping a blob of the given
size. The response-audio object URL is embedded by the base64 payload it
was created from. -/
structure DashState where
  isRecording : Bool
  hasMediaRecorder : Bool
  audioChunks : List Nat
  audioUrl : Option Nat
  isTranscribing : Bool
  transcriptionResult : Option String
  transcriptionError : Option String
  lastTranscriptionTime : Option Nat
  transcriptionAudioUrl : Option String
  isPlayingTranscriptionAudio : Bool
  deriving Repr, DecidableEq

/-- The field initializers of the component class: nothing recorded,
nothing transcribing, no recorder. -/
def initDashState : DashState :=
  { isRecording := false
    hasMediaRecorder := false
    audioChunks := []
    audioUrl := none
    isTranscribing := false
    transcriptionResult := none
    transcriptionError := none
    lastTranscriptionTime := none
    transcriptionAudioUrl := none
    isPlayingTranscriptionAudio := false }

/-- Embeds the success path of `startRecording` (lines 314-367): the
recorder is created, previous recording data is cleared (revoking a held
object URL), and the recording flag flips to active, with the started
notification. -/
def startRecordingSuccess (s : DashState) : DashState × List String :=
  ({ s with hasMediaRecorder := true
            audioChunks := []
            audioUrl := none
            isRecording := true },
   ["Recording started..."])

/-- Embeds the catch branch of `startRecording` (lines 368-378): the state
is left unchanged and an error notification is emitted. -/
def startRecordingFailure (s : DashState) : DashState × List String :=
  (s, ["Error: Could not access microphone. Please check permissions."])

/-- Embeds the `ondataavailable` handler (lines 338-342): a delivered
fragment is appended only when its size is positive. -/
def ondataavailable (s : DashState) (fragmentSize : Nat) : DashState :=
  if 0 < fragmentSize then
    { s with audioChunks := s.audioChunks ++ [fragmentSize] }
  else s

/-- Embeds the `onstop` handler (lines 344-357): the accumulated chunks are
assembled into one blob (whose size is the sum of the fragment sizes) and
its object URL is stored unconditionally; the media tracks are released
and the saved notification is emitted. -/
def onstopHandler (s : DashState) : DashState × List String :=
  ({ s with audioUrl := some s.audioChunks.sum }, ["Recording saved successfully!"])

/-- Outcome of one `stopRecording` call: the state afterwards, the emitted
notifications, whether the underlying recorder was signalled to stop, and
whether the automatic transcription timeout was scheduled. -/
structure StopRecordingResult where
  state : DashState
  notifications : List String
  recorderStopSignalled : Bool
  autoTranscribeScheduled : Bool
  deriving Repr, DecidableEq

/-- Embeds `stopRecording` (lines 381-397): a no-op unless a recorder
exists and recording is active; otherwise the recorder is signalled to
stop, the flag flips to inactive, the stopped notification is emitted and
the delayed automatic transcription is scheduled. -/
def stopRecording (s : DashState) : StopRecordingResult :=
  if s.hasMediaRecorder && s.isRecording then
    { state := { s with isRecording := false }
      notifications := ["Recording stopped. Processing..."]
      recorderStopSignalled := true
      autoTranscribeScheduled := true }
  else
    { state := s
      notifications := []
      recorderStopSignalled := false
      autoTranscribeScheduled := false }

/-- Embeds `clearRecording` (lines 425-449): a no-op when no artifact
reference is held; otherwise the reference is revoked, the fragment
sequence emptied, and all transcription and response-audio state cleared. -/
def clearRecording (s : DashState) : DashState × List String :=
  if s.audioUrl.isSome then
    ({ s with audioUrl := none
              audioChunks := []
              transcriptionResult := none
              transcriptionError := none
              lastTranscriptionTime := none
              transcriptionAudioUrl := none
              isPlayingTranscriptionAudio := false },
     ["Recording cleared."])
  else (s, [])

/-- Outcome of one `transcribeAudio` call up to its subscription: the state
afterwards, the emitted notifications, and whether a transcription request
was issued (the service was invoked). -/
structure TranscribeStartResult where
  state : DashState
  notifications : List String
  requestIssued : Bool
  deriving Repr, DecidableEq

/-- Embeds the synchronous part of `transcribeAudio` (lines 454-477): with
no artifact reference or an empty fragment list it emits the no-audio
notice and returns without issuing a request; otherwise it enters the
transcribing state (clearing any previous result and error) and issues the
request through the service. -/
def transcribeAudioStart (s : DashState) : TranscribeStartResult :=
  if s.audioUrl.isNone || s.audioChunks.isEmpty then
    { state := s
      notifications := ["No audio recording available to transcribe."]
      requestIssued := false }
  else
    { state := { s with isTranscribing := true
                        transcriptionError := none
                        transcriptionResult := none }
      notifications := ["Sending audio for transcription..."]
      requestIssued := true }

/-- Embeds `playTranscriptionAudio` (lines 541-570): playback starts only
when a response-audio URL exists and no playback of it is active. -/
def playTranscriptionAudio (s : DashState) : DashState :=
  if s.transcriptionAudioUrl.isSome && !s.isPlayingTranscriptionAudio then
    { s with isPlayingTranscriptionAudio := true }
  else s

/-- Embeds the success callback of the subscription in `transcribeAudio`
(lines 478-493) together with `handleTranscriptionAudioBuffer`
(lines 510-536): the transcribing flag drops, the result and completion
time are stored, and a response audio payload (when present) replaces the
response-audio URL and is played automatically. The current time is passed
explicitly for `new Date()`. -/
def transcribeSuccess (s : DashState) (response : TranscriptionResponse)
    (now : Nat) : DashState :=
  let s1 := { s with isTranscribing := false
                     transcriptionResult := some response.transcription
                     lastTranscriptionTime := some now }
  match response.audioBuffer with
  | some base64Audio =>
      playTranscriptionAudio { s1 with transcriptionAudioUrl := some base64Audio }
  | none => s1

/-- Embeds the error callback of the subscription in `transcribeAudio`
(lines 494-503): the transcribing flag drops and the error message is
stored. -/
def transcribeFailure (s : DashState) (message : String) : DashState :=
  { s with isTranscribing := false
           transcriptionError := some message }

/-- Embeds `clearTranscription` (lines 599-616): result, error, completion
time and the response-audio state are cleared unconditionally. -/
def clearTranscription (s : DashState) : DashState × List String :=
  ({ s with transcriptionResult := none
            transcriptionError := none
            lastTranscriptionTime := none
            transcriptionAudioUrl := none
            isPlayingTranscriptionAudio := false },
   ["Transcription cleared."])

end DashboardComponent

namespace DashboardComponent

/-- Folding the data-available handler over a list of delivered fragment
sizes appends exactly the positive (non-empty) sizes to the fragment
sequence and changes nothing else. -/
theorem foldl_ondataavailable (frags : List Nat) (s : DashState) :
    frags.foldl ondataavailable s =
      { s with audioChunks := s.audioChunks ++ frags.filter (fun d => 0 < d) } := by
  induction frags generalizing s with
  | nil => simp
  | cons d rest ih =>
      by_cases hd : 0 < d
      · simp [List.foldl_cons, ondataavailable, hd, ih, List.filter_cons]
      · simp [List.foldl_cons, ondataavailable, hd, ih, List.filter_cons]

end DashboardComponent

namespace DashboardComponent

/-- Claim C1, counterexample. The claim states that when every delivered
fragment of a recording pass was empty, the artifact reference is null
after the stop-confirmation event. In the code the onstop handler stores
an object URL unconditionally: after a pass that delivered one empty
fragment, the fragment sequence is empty yet the artifact reference is a
(non-null) URL of an empty blob, which also falsifies the equivalent
claim that a non-null reference implies a non-empty fragment exists. -/
theorem c1_counterexample_all_empty_fragments :
    (let stopped :=
      (onstopHandler (ondataavailable (startRecordingSuccess initDashState).1 0)).1
     stopped.audioChunks = [] ∧ stopped.audioUrl = some 0 ∧
     stopped.audioUrl ≠ none) := by
  decide

/-- Claim C1, amended: after the stop-confirmation event of a recording
pass the artifact reference is always non-null — it wraps the blob
assembled from the accumulated fragments, which are exactly the non-empty
deliveries (empty fragments are dropped). In particular a sequence with at
least one non-empty fragment yields a non-null reference, but an all-empty
sequence yields a non-null reference to an empty blob rather than a null
one. -/
theorem c1_stop_reference_nonnull (s : DashState) (frags : List Nat) :
    (let afterStop :=
      (onstopHandler ((startRecordingSuccess s).1 |> frags.foldl ondataavailable)).1
     afterStop.audioUrl = some (frags.filter (fun d => 0 < d)).sum ∧
     afterStop.audioUrl ≠ none ∧
     afterStop.audioChunks = frags.filter (fun d => 0 < d)) := by
  simp [startRecordingSuccess, foldl_ondataavailable, onstopHandler]

/-- Claim C6: clearing the recording and then invoking transcribeAudio
issues no network request: the artifact reference is null after the clear,
so transcribeAudio leaves the state unchanged and only emits the no-audio
notice. -/
theorem c6_clear_then_transcribe_no_request (s : DashState) :
    (let cleared := (clearRecording s).1
     let attempt := transcribeAudioStart cleared
     cleared.audioUrl = none ∧
     attempt.requestIssued = false ∧
     attempt.state = cleared ∧
     attempt.notifications = ["No audio recording available to transcribe."]) := by
  rcases h : s.audioUrl with _ | u <;>
    simp [clearRecording, h, transcribeAudioStart]

/-- Claim C8: stopRecording is a no-op (same state, no notification, no
stop signal to the recorder) unless a recorder exists and recording is
active, in which case it signals the recorder to stop, flips the recording
flag to inactive and emits the stopped notification. -/
theorem c8_stopRecording_noop_unless_active (s : DashState) :
    (s.hasMediaRecorder = false ∨ s.isRecording = false →
      stopRecording s =
        { state := s, notifications := [], recorderStopSignalled := false,
          autoTranscribeScheduled := false }) ∧
    (s.hasMediaRecorder = true → s.isRecording = true →
      (stopRecording s).state = { s with isRecording := false } ∧
      (stopRecording s).recorderStopSignalled = true ∧
      (stopRecording s).notifications = ["Recording stopped. Processing..."]) := by
  constructor
  · intro h
    rcases h with h | h <;> simp [stopRecording, h]
  · intro h1 h2
    simp [stopRecording, h1, h2]

/-- Witness for c8_stopRecording_noop_unless_active: at the initial state
(no recorder, not recording) stopRecording changes nothing and emits
nothing, and at a state with an active recorder it flips the flag, signals
the recorder, and emits the stopped notification. -/
theorem c8_stopRecording_noop_unless_active_witness :
    stopRecording initDashState =
      { state := initDashState, notifications := [],
        recorderStopSignalled := false, autoTranscribeScheduled := false } ∧
    ((stopRecording
        { initDashState with hasMediaRecorder := true, isRecording := true }).state =
      { initDashState with hasMediaRecorder := true, isRecording := false } ∧
     (stopRecording
        { initDashState with hasMediaRecorder := true, isRecording := true }).recorderStopSignalled
        = true ∧
     (stopRecording
        { initDashState with hasMediaRecorder := true, isRecording := true }).notifications =
      ["Recording stopped. Processing..."]) :=
  ⟨(c8_stopRecording_noop_unless_active initDashState).1 (Or.inl rfl),
   (c8_stopRecording_noop_unless_active
      { initDashState with hasMediaRecorder := true, isRecording := true }).2 rfl rfl⟩

end DashboardComponent

namespace DashboardComponent

/-- One event of the single-threaded browser runtime acting on the
component, paired with the number of transcription requests currently in
flight (subscriptions whose callback has not yet fired). Success and error
callbacks can only fire while a request is in flight; the stop
confirmation can only fire once a recorder exists and recording has been
flipped off; every other operation can be invoked at any time. -/
inductive Step : DashState × Nat → DashState × Nat → Prop where
  | startRecOk (s : DashState) (p : Nat) :
      Step (s, p) ((startRecordingSuccess s).1, p)
  | startRecErr (s : DashState) (p : Nat) :
      Step (s, p) ((startRecordingFailure s).1, p)
  | dataAvail (s : DashState) (p : Nat) (d : Nat) :
      Step (s, p) (ondataavailable s d, p)
  | recStop (s : DashState) (p : Nat) :
      s.hasMediaRecorder = true → s.isRecording = false →
      Step (s, p) ((onstopHandler s).1, p)
  | stopRec (s : DashState) (p : Nat) :
      Step (s, p) ((stopRecording s).state, p)
  | transcribe (s : DashState) (p : Nat) :
      Step (s, p) ((transcribeAudioStart s).state,
        p + (if (transcribeAudioStart s).requestIssued then 1 else 0))
  | success (s : DashState) (p : Nat) (response : TranscriptionResponse) (now : Nat) :
      1 ≤ p → Step (s, p) (transcribeSuccess s response now, p - 1)
  | failure (s : DashState) (p : Nat) (message : String) :
      1 ≤ p → Step (s, p) (transcribeFailure s message, p - 1)
  | clearRec (s : DashState) (p : Nat) :
      Step (s, p) ((clearRecording s).1, p)
  | clearTrans (s : DashState) (p : Nat) :
      Step (s, p) ((clearTranscription s).1, p)

/-- Reachability of a component configuration from the freshly constructed
component through any sequence of runtime events. -/
inductive Reach : DashState × Nat → Prop where
  | init : Reach (initDashState, 0)
  | step {c c' : DashState × Nat} : Reach c → Step c c' → Reach c'

/-- Claim C7, counterexample. The claim states that in every reachable
component state at most one of result and error is non-null. The runtime
permits two overlapping transcription requests (for example the
uncancellable automatic post-stop trigger together with a manual
invocation); when the first fails and the second then succeeds, the
success callback stores the result without clearing the stored error, so a
reachable state holds both. The trace: start recording, deliver a 10-byte
fragment, stop, stop confirmation, invoke transcribeAudio twice, fail the
first request, complete the second. -/
theorem c7_counterexample_overlapping_requests :
    ∃ s : DashState, ∃ p : Nat, Reach (s, p) ∧
      s.transcriptionResult = some "hi" ∧ s.transcriptionError = some "err" := by
  have h0 : Reach (initDashState, 0) := Reach.init
  have h1 := Reach.step h0 (Step.startRecOk _ _)
  have h2 := Reach.step h1 (Step.dataAvail _ _ 10)
  have h3 := Reach.step h2 (Step.stopRec _ _)
  have h4 := Reach.step h3 (Step.recStop _ _ (by decide) (by decide))
  have h5 := Reach.step h4 (Step.transcribe _ _)
  have h6 := Reach.step h5 (Step.transcribe _ _)
  have h7 := Reach.step h6 (Step.failure _ _ "err" (by decide))
  have h8 := Reach.step h7
    (Step.success _ _ { transcription := "hi", audioBuffer := none } 0 (by decide))
  exact ⟨_, _, h8, by decide, by decide⟩

end DashboardComponent


namespace DashboardComponent

/-- Reachability when transcription requests are serialized: transcribeAudio
is invoked only while no request is in flight. All other events are as in
the unrestricted runtime. -/
inductive ReachSeq : DashState × Nat → Prop where
  | init : ReachSeq (initDashState, 0)
  | startRecOk (s : DashState) (p : Nat) :
      ReachSeq (s, p) → ReachSeq ((startRecordingSuccess s).1, p)
  | startRecErr (s : DashState) (p : Nat) :
      ReachSeq (s, p) → ReachSeq ((startRecordingFailure s).1, p)
  | dataAvail (s : DashState) (p : Nat) (d : Nat) :
      ReachSeq (s, p) → ReachSeq (ondataavailable s d, p)
  | recStop (s : DashState) (p : Nat) :
      ReachSeq (s, p) → s.hasMediaRecorder = true → s.isRecording = false →
      ReachSeq ((onstopHandler s).1, p)
  | stopRec (s : DashState) (p : Nat) :
      ReachSeq (s, p) → ReachSeq ((stopRecording s).state, p)
  | transcribe (s : DashState) :
      ReachSeq (s, 0) → ReachSeq ((transcribeAudioStart s).state,
        if (transcribeAudioStart s).requestIssued then 1 else 0)
  | success (s : DashState) (p : Nat)
      (response : TranscriptionResponse) (now : Nat) :
      ReachSeq (s, p) → 1 ≤ p → ReachSeq (transcribeSuccess s response now, p - 1)
  | failure (s : DashState) (p : Nat) (message : String) :
      ReachSeq (s, p) → 1 ≤ p → ReachSeq (transcribeFailure s message, p - 1)
  | clearRec (s : DashState) (p : Nat) :
      ReachSeq (s, p) → ReachSeq ((clearRecording s).1, p)
  | clearTrans (s : DashState) (p : Nat) :
      ReachSeq (s, p) → ReachSeq ((clearTranscription s).1, p)

/-- Strengthened inductive invariant for serialized requests: mutual
exclusion of result and error, at most one request in flight, a clean
result and error slate while a request is in flight, and the transcribing
flag tied to the in-flight request. -/
def SeqInv (s : DashState) (p : Nat) : Prop :=
  (s.transcriptionResult = none ∨ s.transcriptionError = none) ∧
  p ≤ 1 ∧
  (1 ≤ p → s.transcriptionResult = none ∧ s.transcriptionError = none) ∧
  (s.isTranscribing = true → p = 1)

/-- The success callback stores the result, leaves the stored error
untouched, and drops the transcribing flag, whatever the audio payload. -/
theorem transcribeSuccess_fields (s : DashState)
    (response : TranscriptionResponse) (now : Nat) :
    (transcribeSuccess s response now).transcriptionResult = some response.transcription ∧
    (transcribeSuccess s response now).transcriptionError = s.transcriptionError ∧
    (transcribeSuccess s response now).isTranscribing = false := by
  unfold transcribeSuccess playTranscriptionAudio
  cases hab : response.audioBuffer with
  | none => exact ⟨rfl, rfl, rfl⟩
  | some buf =>
      dsimp only
      split
      · exact ⟨rfl, rfl, rfl⟩
      · exact ⟨rfl, rfl, rfl⟩

theorem seqInv_of_reachSeq {c : DashState × Nat} (h : ReachSeq c) :
    SeqInv c.1 c.2 := by
  induction h with
  | init =>
      exact ⟨Or.inl rfl, Nat.zero_le 1, fun _ => ⟨rfl, rfl⟩,
        fun h => absurd h Bool.false_ne_true⟩
  | startRecOk s p _ ih => exact ⟨ih.1, ih.2.1, ih.2.2.1, ih.2.2.2⟩
  | startRecErr s p _ ih => exact ⟨ih.1, ih.2.1, ih.2.2.1, ih.2.2.2⟩
  | dataAvail s p d _ ih =>
      rcases ih with ⟨i1, i2, i3, i4⟩
      unfold ondataavailable
      split <;> exact ⟨i1, i2, i3, i4⟩
  | recStop s p _ _ _ ih => exact ⟨ih.1, ih.2.1, ih.2.2.1, ih.2.2.2⟩
  | stopRec s p _ ih =>
      rcases ih with ⟨i1, i2, i3, i4⟩
      unfold stopRecording
      split <;> exact ⟨i1, i2, i3, i4⟩
  | transcribe s _ ih =>
      rcases ih with ⟨i1, i2, i3, i4⟩
      unfold transcribeAudioStart
      split
      · exact ⟨i1, Nat.zero_le 1, fun h => absurd h (Nat.not_succ_le_zero 0),
          fun h => ((Nat.one_ne_zero (i4 h).symm).elim)⟩
      · exact ⟨Or.inl rfl, Nat.le_refl 1, fun _ => ⟨rfl, rfl⟩, fun _ => rfl⟩
  | success s p response now _ hp ih =>
      rcases ih with ⟨i1, i2, i3, i4⟩
      rcases i3 hp with ⟨hr, he⟩
      obtain ⟨f1, f2, f3⟩ := transcribeSuccess_fields s response now
      exact ⟨Or.inr (f2.trans he), Nat.le_trans (Nat.sub_le p 1) i2,
        fun h => absurd (h.trans (Nat.sub_le_sub_right i2 1)) (Nat.not_succ_le_zero 0),
        fun h => absurd (f3.symm.trans h) Bool.false_ne_true⟩
  | failure s p message _ hp ih =>
      rcases ih with ⟨i1, i2, i3, i4⟩
      rcases i3 hp with ⟨hr, he⟩
      exact ⟨Or.inl hr, Nat.le_trans (Nat.sub_le p 1) i2,
        fun h => absurd (h.trans (Nat.sub_le_sub_right i2 1)) (Nat.not_succ_le_zero 0),
        fun h => absurd h Bool.false_ne_true⟩
  | clearRec s p _ ih =>
      rcases ih with ⟨i1, i2, i3, i4⟩
      unfold clearRecording
      split
      · exact ⟨Or.inl rfl, i2, fun _ => ⟨rfl, rfl⟩, i4⟩
      · exact ⟨i1, i2, i3, i4⟩
  | clearTrans s p _ ih =>
      rcases ih with ⟨i1, i2, i3, i4⟩
      exact ⟨Or.inl rfl, i2, fun _ => ⟨rfl, rfl⟩, i4⟩

end DashboardComponent

namespace DashboardComponent

/-- Claim C7, amended: in every component state reachable while
transcription requests are serialized (a new transcribeAudio invocation
only once no request is in flight), at most one of result and error is
non-null and the transcribing flag is set only while both are null; with
two overlapping requests the success callback can leave both non-null,
since it does not clear a stored error. -/
theorem c7_transcription_state_invariant (c : DashState × Nat)
    (h : ReachSeq c) :
    (c.1.transcriptionResult = none ∨ c.1.transcriptionError = none) ∧
    (c.1.isTranscribing = true →
      c.1.transcriptionResult = none ∧ c.1.transcriptionError = none) := by
  obtain ⟨i1, i2, i3, i4⟩ := seqInv_of_reachSeq h
  exact ⟨i1, fun hT => i3 (Nat.le_of_eq (i4 hT).symm)⟩

/-- Witness for c7_transcription_state_invariant at the initial
configuration. -/
theorem c7_transcription_state_invariant_witness :
    (initDashState.transcriptionResult = none ∨
      initDashState.transcriptionError = none) ∧
    (initDashState.isTranscribing = true →
      initDashState.transcriptionResult = none ∧
      initDashState.transcriptionError = none) :=
  c7_transcription_state_invariant (initDashState, 0) ReachSeq.init

end DashboardComponent

namespace DashboardComponent

theorem digitChar_isDigit {n : Nat} (h : n < 10) :
    (Nat.digitChar n).isDigit = true := by
  interval_cases n <;> decide

theorem toDigitsCore_digits (fuel : Nat) :
    ∀ (n : Nat) (acc : List Char), (∀ c ∈ acc, c.isDigit = true) →
      ∀ c ∈ Nat.toDigitsCore 10 fuel n acc, c.isDigit = true := by
  induction fuel with
  | zero =>
      intro n acc hacc c hc
      simpa [Nat.toDigitsCore] using hacc c (by simpa [Nat.toDigitsCore] using hc)
  | succ fuel ih =>
      intro n acc hacc c hc
      unfold Nat.toDigitsCore at hc
      by_cases h10 : n / 10 = 0
      · rw [if_pos h10] at hc
        rcases List.mem_cons.mp hc with h | h
        · subst h; exact digitChar_isDigit (Nat.mod_lt n (by decide))
        · exact hacc c h
      · rw [if_neg h10] at hc
        refine ih (n / 10) _ ?_ c hc
        intro c' hc'
        rcases List.mem_cons.mp hc' with h | h
        · subst h; exact digitChar_isDigit (Nat.mod_lt n (by decide))
        · exact hacc c' h

theorem toDigitsCore_length_le (fuel : Nat) :
    ∀ (n : Nat) (acc : List Char),
      acc.length ≤ (Nat.toDigitsCore 10 fuel n acc).length := by
  induction fuel with
  | zero => intro n acc; simp [Nat.toDigitsCore]
  | succ fuel ih =>
      intro n acc
      unfold Nat.toDigitsCore
      by_cases h10 : n / 10 = 0
      · rw [if_pos h10]; exact Nat.le_succ _
      · rw [if_neg h10]
        exact Nat.le_trans (Nat.le_succ _)
          (ih (n / 10) ((n % 10).digitChar :: acc))

/-- The decimal representation of a natural number is a non-empty string
of digit characters. -/
theorem repr_data_digits (n : Nat) :
    (Nat.repr n).data ≠ [] ∧ ∀ c ∈ (Nat.repr n).data, c.isDigit = true := by
  have hdata : (Nat.repr n).data = Nat.toDigits 10 n := rfl
  constructor
  · rw [hdata]
    unfold Nat.toDigits Nat.toDigitsCore
    by_cases h10 : n / 10 = 0
    · rw [if_pos h10]; simp
    · rw [if_neg h10]
      intro h
      have hlen := toDigitsCore_length_le n (n / 10) [Nat.digitChar (n % 10)]
      rw [h] at hlen
      simp at hlen
  · rw [hdata]
    exact toDigitsCore_digits (n + 1) n [] (by simp)

/-- A session identifier in the tested format: the leading literal conv_,
then a non-empty run of decimal digits, an underscore, and a non-empty run
of lowercase-alphanumeric characters (the test regex). -/
def isConvFormat (str : String) : Prop :=
  ∃ t r : String, str = "conv_" ++ t ++ "_" ++ r ∧
    t.data ≠ [] ∧ (∀ c ∈ t.data, c.isDigit = true) ∧
    r.data ≠ [] ∧ (∀ c ∈ r.data, c.isLower = true ∨ c.isDigit = true)

/-- State of the session orchestrator: the dashboard state together with
the current client session identifier. -/
structure OrchState where
  dash : DashState
  conversationId : String
  deriving Repr, DecidableEq

/-- Modelled from the spec: the session identifier generator, which is not
part of the sources (only its tests are). Format
conv_(timestamp)_(random-suffix), per spec section 3; the timestamp is the
decimal clock reading and the random suffix is the entropy drawn at the
call, both passed explicitly. -/
def generateConversationId (now : Nat) (rand : String) : String :=
  "conv_" ++ Nat.repr now ++ "_" ++ rand

/-- Modelled from the spec: startNewSession, which is not part of the
sources (only its tests are). Per spec sections 4.4 and 8 it clears all
recording, transcription, and response-audio state, revokes held
references, clears the correlator started-set and mapping, and issues a
fresh session identifier, with a notification. -/
def startNewSession (_s : OrchState) (corr : TranscriptionService.ServiceState)
    (now : Nat) (rand : String) :
    OrchState × TranscriptionService.ServiceState × List String :=
  ({ dash := initDashState, conversationId := generateConversationId now rand },
   TranscriptionService.clearStartedConversations corr,
   ["New session started!"])

/-- Two generated identifiers with distinct random suffixes of equal
length differ, whatever the two timestamps. -/
theorem generateConversationId_ne (now1 now2 : Nat) (r1 r2 : String)
    (hlen : r1.length = r2.length) (hne : r1 ≠ r2) :
    generateConversationId now1 r1 ≠ generateConversationId now2 r2 := by
  intro h
  apply hne
  have hd : ("conv_" ++ Nat.repr now1 ++ "_").data ++ r1.data =
      ("conv_" ++ Nat.repr now2 ++ "_").data ++ r2.data := by
    have h2 := congrArg String.data h
    simpa [generateConversationId, String.data_append, List.append_assoc] using h2
  have hlen2 : r1.data.length = r2.data.length := hlen
  obtain ⟨-, hr⟩ := List.append_inj' hd hlen2
  exact String.ext hr

end DashboardComponent

namespace DashboardComponent

/-- Claim C9 (startNewSession is modelled from the spec; only its tests are
in the sources): provided the previous identifier was produced by the
generator and the entropy drawn at this call differs from the previous
draw (distinct random suffixes of the same length, the suffix being
non-empty lowercase-alphanumeric), startNewSession yields a session
identifier different from the immediately preceding one and matching the
conv_(timestamp)_(random-suffix) format, resets the component to its
initial state, and clears the correlator started-set and mapping. -/
theorem c9_startNewSession_fresh_and_clears (s : OrchState)
    (corr : TranscriptionService.ServiceState)
    (now prevNow : Nat) (rand prevRand : String)
    (hprev : s.conversationId = generateConversationId prevNow prevRand)
    (hlen : rand.length = prevRand.length)
    (hne : rand ≠ prevRand)
    (hr0 : rand.data ≠ [])
    (hrc : ∀ c ∈ rand.data, c.isLower = true ∨ c.isDigit = true) :
    (let o := startNewSession s corr now rand
     o.1.conversationId ≠ s.conversationId ∧
     isConvFormat o.1.conversationId ∧
     o.1.dash = initDashState ∧
     o.2.1.startedConversations = [] ∧
     o.2.1.conversationIdMapping = []) := by
  refine ⟨?_, ?_, rfl, rfl, rfl⟩
  · rw [hprev]
    exact generateConversationId_ne now prevNow rand prevRand hlen hne
  · exact ⟨Nat.repr now, rand, rfl, (repr_data_digits now).1,
      (repr_data_digits now).2, hr0, hrc⟩

/-- Witness for c9_startNewSession_fresh_and_clears: a concrete new session
from a state whose identifier was generated at time 1 with suffix abc,
drawing time 2 and suffix xyz. -/
theorem c9_startNewSession_fresh_and_clears_witness :
    (let s : OrchState :=
      { dash := initDashState, conversationId := generateConversationId 1 "abc" }
     let o := startNewSession s TranscriptionService.initialState 2 "xyz"
     o.1.conversationId ≠ s.conversationId ∧
     isConvFormat o.1.conversationId ∧
     o.1.dash = initDashState ∧
     o.2.1.startedConversations = [] ∧
     o.2.1.conversationIdMapping = []) :=
  c9_startNewSession_fresh_and_clears
    { dash := initDashState, conversationId := generateConversationId 1 "abc" }
    TranscriptionService.initialState 2 1 "xyz" "abc"
    rfl rfl (by decide) (by decide) (by decide)

end DashboardComponent
